import Mathlib

/-!
Formal model of the core of `dchk`, an RDAP domain-availability checker.

The development shallowly embeds the TypeScript sources:
* `src/cli/lib/rdap.ts` — response interpretation (`interpretRdapResponse`,
  `parseErrorCode`), the two resolvers (`checkViaRdapOrg`,
  `checkViaAuthoritative`), the fallback orchestration (`checkDomain`),
  domain validation (`isValidDomain`), the IANA bootstrap cache
  (`getIanaBootstrap`, `clearIanaCache`) and the bootstrap lookup
  (`extractTld`, `getAuthoritativeRdapUrl`);
* the concurrency pool (`runConcurrent`, `runConcurrentStreaming`).

Parsed JSON bodies are modelled by an inductive `JsValue` that also carries
the JavaScript `undefined` value, since property/index access on arbitrary
values shows up in the bootstrap-scanning code.  Network effects are made
explicit: each model takes the outcome of the HTTP fetch (or the fetched
bootstrap document) as a parameter, with `Option` marking transport
failure; asynchronous completion order is made explicit as a schedule
parameter (a list of task indices in settlement order).
-/

namespace Dchk

/-- Tri-state registration status (`Status` in `src/cli/types/domain.ts`). -/
inductive Status
  | available
  | registered
  | unknown
deriving DecidableEq, Repr

/-- JavaScript values reachable in the code paths modelled here: every JSON
value, plus `undefined`, which arises from property and index access. -/
inductive JsValue
  | undefined
  | null
  | bool (b : Bool)
  | num (n : Int)
  | str (s : String)
  | arr (elems : List JsValue)
  | obj (fields : List (String × JsValue))

/-- JavaScript truthiness of a `JsValue`.  (`NaN` is not representable in
this integer model of JSON numbers; it never arises from the modelled
code.) -/
def truthy : JsValue → Bool
  | .undefined => false
  | .null => false
  | .bool b => b
  | .num n => n != 0
  | .str s => s != ""
  | .arr _ => true
  | .obj _ => true

/-- First-match association lookup on an object's field list.  JavaScript
objects have unique keys, so first match is exact. -/
def lookupField : List (String × JsValue) → String → Option JsValue
  | [], _ => none
  | (k, v) :: rest, key => if k = key then some v else lookupField rest key

/-- Model of `parseErrorCode` (rdap.ts:10-14):
`if (!json || typeof json !== 'object') return undefined;` admits exactly
objects and arrays (`typeof [] === 'object'`, and `null` is excluded by
`!json`); an array has no `errorCode` property; then the `errorCode` field
is returned only when it is a number. -/
def parseErrorCode (json : JsValue) : Option Int :=
  match json with
  | .obj fields =>
      match lookupField fields "errorCode" with
      | some (.num n) => some n
      | _ => none
  | _ => none

/-- Result of `interpretRdapResponse`: the tri-state status together with
the optional body-embedded error code. -/
structure RdapInterpretation where
  status : Status
  errorCode : Option Int
deriving DecidableEq, Repr

/-- Model of `interpretRdapResponse` (rdap.ts:60-86), branch for branch:
HTTP 200 with a truthy body is `registered` unless the embedded error code
is 404; HTTP 404 is `available`; otherwise the embedded error code decides
between `available` (404) and `unknown` (code carried through). -/
def interpretRdapResponse (httpStatus : Nat) (json : JsValue) : RdapInterpretation :=
  if httpStatus = 200 ∧ truthy json = true then
    let errorCode := parseErrorCode json
    if errorCode = some 404 then ⟨.available, errorCode⟩
    else ⟨.registered, none⟩
  else if httpStatus = 404 then
    ⟨.available, some 404⟩
  else
    let errorCode := parseErrorCode json
    if errorCode = some 404 then ⟨.available, errorCode⟩
    else ⟨.unknown, errorCode⟩

/-- Decision table transcribed from the specification's words (section 4.2
and claim C1), evaluated in order with the final clause as the default:
(1) status 200 with a present/parseable (truthy) body: `available` with
error code 404 when the body embeds error code 404, else `registered`;
(2) status 404: `available` with error code 404 regardless of body;
(3) default: `available` when the body embeds error code 404, else
`unknown` carrying through any embedded error code. -/
def interpretSpecTable (httpStatus : Nat) (json : JsValue) : RdapInterpretation :=
  if httpStatus = 200 ∧ truthy json = true then
    if parseErrorCode json = some 404 then ⟨.available, some 404⟩
    else ⟨.registered, none⟩
  else if httpStatus = 404 then
    ⟨.available, some 404⟩
  else
    if parseErrorCode json = some 404 then ⟨.available, some 404⟩
    else ⟨.unknown, parseErrorCode json⟩

/-- C1: for every HTTP status and parsed body, `interpretRdapResponse`
follows the spec's ordered decision table, and in particular
`interpret(200, {}) = registered`, `interpret(200, {errorCode:404}) =
available`, `interpret(404, null) = available`, `interpret(500, {}) =
unknown`. -/
theorem c1_interpret_follows_spec_decision_table :
    (∀ (httpStatus : Nat) (json : JsValue),
      interpretRdapResponse httpStatus json = interpretSpecTable httpStatus json)
    ∧ interpretRdapResponse 200 (.obj []) = ⟨.registered, none⟩
    ∧ interpretRdapResponse 200 (.obj [("errorCode", .num 404)]) = ⟨.available, some 404⟩
    ∧ interpretRdapResponse 404 .null = ⟨.available, some 404⟩
    ∧ interpretRdapResponse 500 (.obj []) = ⟨.unknown, none⟩ := by
  refine ⟨fun httpStatus json => ?_, rfl, rfl, rfl, rfl⟩
  simp only [interpretRdapResponse, interpretSpecTable]
  split_ifs with h1 h2 h3 h4 <;> simp_all

/-- C10: whenever `interpretRdapResponse` classifies `available` the
attached error code is 404, and whenever it classifies `registered` no
error code is attached. -/
theorem c10_available_iff_errorCode_404 :
    ∀ (httpStatus : Nat) (json : JsValue),
      ((interpretRdapResponse httpStatus json).status = .available →
        (interpretRdapResponse httpStatus json).errorCode = some 404)
      ∧ ((interpretRdapResponse httpStatus json).status = .registered →
        (interpretRdapResponse httpStatus json).errorCode = none) := by
  intro httpStatus json
  simp only [interpretRdapResponse]
  split_ifs with h1 h2 h3 h4 <;> simp_all

/-- Witness for C10 at concrete inputs: an `available` answer (HTTP 404)
carries error code 404, and a `registered` answer (HTTP 200, `{}` body)
carries none. -/
theorem c10_available_iff_errorCode_404_witness :
    (interpretRdapResponse 404 .null).errorCode = some 404
    ∧ (interpretRdapResponse 200 (.obj [])).errorCode = none :=
  ⟨(c10_available_iff_errorCode_404 404 .null).1 rfl,
   (c10_available_iff_errorCode_404 200 (.obj [])).2 rfl⟩

/-- Outcome of a successful `fetchJson` call (rdap.ts:3-8): HTTP status,
opportunistically parsed body (`null` when unparseable), post-redirect URL
and elapsed time. -/
structure FetchResult where
  status : Nat
  json : JsValue
  finalUrl : String
  responseTimeMs : Nat

/-- One domain's outcome (`CheckResult` in `src/cli/types/domain.ts`). -/
structure CheckResult where
  domain : String
  status : Status
  httpStatus : Option Nat
  errorCode : Option Int
  source : Option String
  responseTimeMs : Nat
deriving DecidableEq, Repr

/-- The aggregator URL built in `checkViaRdapOrg` (rdap.ts:93).
`encodeURIComponent` is the identity on the alphanumeric/hyphen/dot
alphabet of valid domains and is not modelled further. -/
def rdapOrgUrl (domain : String) : String :=
  "https://rdap.org/domain/" ++ domain

/-- Model of `checkViaRdapOrg` (rdap.ts:88-113).  The network effect is a
parameter: `fetchOutcome = none` models a thrown timeout or transport
failure, answered by the `catch` block's sentinel (status `unknown`, no
`httpStatus`, `responseTimeMs = 0`); `some result` is the fetched
response, interpreted by `interpretRdapResponse`.  Totality of this
function is the model of "never propagates an exception". -/
def checkViaRdapOrg (domain : String) (fetchOutcome : Option FetchResult) : CheckResult :=
  match fetchOutcome with
  | some result =>
      let interpretation := interpretRdapResponse result.status result.json
      { domain := domain
        status := interpretation.status
        httpStatus := some result.status
        errorCode := interpretation.errorCode
        source := some (if result.finalUrl = rdapOrgUrl domain then "rdap.org" else result.finalUrl)
        responseTimeMs := result.responseTimeMs }
  | none =>
      { domain := domain
        status := .unknown
        httpStatus := none
        errorCode := none
        source := some "rdap.org"
        responseTimeMs := 0 }

/-- Model of `checkViaAuthoritative` (rdap.ts:115-143).  `authUrl` is the
outcome of `getAuthoritativeRdapUrl` (`none` when no bootstrap URL was
found, the directory fetch failed, or the lookup threw); `fetchOutcome =
none` models a transport failure of the authoritative query itself.  In
every failure case the `catch`/guard returns `null`, i.e. `none`.  A
successful query is interpreted like the primary one, with provenance
`source` set to the authoritative base URL. -/
def checkViaAuthoritative (domain : String) (authUrl : Option String)
    (fetchOutcome : Option FetchResult) : Option CheckResult :=
  match authUrl with
  | none => none
  | some url =>
      match fetchOutcome with
      | none => none
      | some result =>
          let interpretation := interpretRdapResponse result.status result.json
          some { domain := domain
                 status := interpretation.status
                 httpStatus := some result.status
                 errorCode := interpretation.errorCode
                 source := some url
                 responseTimeMs := result.responseTimeMs }

/-- Model of `checkDomain` (rdap.ts:152-177).  Returns the chosen
`CheckResult` paired with the number of authoritative attempts issued
(0 or 1), which makes "no authoritative request is issued" a provable
statement.  The primary result is returned when definitive; otherwise the
authoritative fallback is consulted exactly when `fallback` is set, and
its result is returned only when definitive; in every other case the
primary's original result is returned. -/
def checkDomain (domain : String) (fallback : Bool) (primaryFetch : Option FetchResult)
    (authUrl : Option String) (authFetch : Option FetchResult) : CheckResult × Nat :=
  let primaryResult := checkViaRdapOrg domain primaryFetch
  if primaryResult.status ≠ .unknown then
    (primaryResult, 0)
  else if fallback = true then
    match checkViaAuthoritative domain authUrl authFetch with
    | some authResult =>
        if authResult.status ≠ .unknown then (authResult, 1) else (primaryResult, 1)
    | none => (primaryResult, 1)
  else
    (primaryResult, 0)

/-- A successful authoritative check records the authoritative base URL as
its provenance (rdap.ts:137). -/
lemma checkViaAuthoritative_source (domain : String) (authUrl : Option String)
    (authFetch : Option FetchResult) (r : CheckResult)
    (h : checkViaAuthoritative domain authUrl authFetch = some r) : r.source = authUrl := by
  match authUrl, authFetch with
  | none, _ => simp [checkViaAuthoritative] at h
  | some url, none => simp [checkViaAuthoritative] at h
  | some url, some result =>
      simp only [checkViaAuthoritative, Option.some.injEq] at h
      subst h
      rfl

/-- C2: when the primary query is inconclusive — fallback disabled returns
the primary's unknown result with no authoritative request; fallback
enabled returns a definitive authoritative result with source equal to the
authoritative base URL; an unavailable or inconclusive authoritative path
returns the primary's original unknown result. -/
theorem c2_fallback_orchestration :
    ∀ (domain : String) (primaryFetch : Option FetchResult) (authUrl : Option String)
      (authFetch : Option FetchResult),
      (checkViaRdapOrg domain primaryFetch).status = .unknown →
      (checkDomain domain false primaryFetch authUrl authFetch
          = (checkViaRdapOrg domain primaryFetch, 0))
      ∧ (∀ authResult, checkViaAuthoritative domain authUrl authFetch = some authResult →
          authResult.status ≠ .unknown →
          checkDomain domain true primaryFetch authUrl authFetch = (authResult, 1)
          ∧ authResult.source = authUrl)
      ∧ (checkViaAuthoritative domain authUrl authFetch = none →
          checkDomain domain true primaryFetch authUrl authFetch
            = (checkViaRdapOrg domain primaryFetch, 1))
      ∧ (∀ authResult, checkViaAuthoritative domain authUrl authFetch = some authResult →
          authResult.status = .unknown →
          checkDomain domain true primaryFetch authUrl authFetch
            = (checkViaRdapOrg domain primaryFetch, 1)) := by
  intro domain primaryFetch authUrl authFetch hPrimary
  refine ⟨?_, ?_, ?_, ?_⟩
  · simp [checkDomain, hPrimary]
  · intro authResult hEq hDef
    exact ⟨by simp [checkDomain, hPrimary, hEq, hDef],
           checkViaAuthoritative_source domain authUrl authFetch authResult hEq⟩
  · intro hNone
    simp [checkDomain, hPrimary, hNone]
  · intro authResult hEq hUnk
    simp [checkDomain, hPrimary, hEq, hUnk]

/-- Witness for C2 at concrete inputs: primary transport failure (hence
unknown), fallback enabled, authoritative 200/`{}` answer: the result is
the authoritative `registered` answer with its base URL as source; and
with fallback disabled the primary unknown sentinel is returned with no
authoritative request. -/
theorem c2_fallback_orchestration_witness :
    (checkDomain "example.io" true none (some "https://rdap.nic.io/")
        (some { status := 200, json := .obj [], finalUrl := "https://rdap.nic.io/domain/example.io", responseTimeMs := 42 })
      = ({ domain := "example.io", status := .registered, httpStatus := some 200,
           errorCode := none, source := some "https://rdap.nic.io/", responseTimeMs := 42 }, 1)
      ∧ ({ domain := "example.io", status := Status.registered, httpStatus := some 200,
           errorCode := none, source := some "https://rdap.nic.io/",
           responseTimeMs := 42 } : CheckResult).source = some "https://rdap.nic.io/")
    ∧ checkDomain "example.io" false none (some "https://rdap.nic.io/")
        (some { status := 200, json := .obj [], finalUrl := "https://rdap.nic.io/domain/example.io", responseTimeMs := 42 })
      = (checkViaRdapOrg "example.io" none, 0) :=
  ⟨(c2_fallback_orchestration "example.io" none (some "https://rdap.nic.io/")
      (some { status := 200, json := .obj [], finalUrl := "https://rdap.nic.io/domain/example.io", responseTimeMs := 42 })
      rfl).2.1
      { domain := "example.io", status := .registered, httpStatus := some 200,
        errorCode := none, source := some "https://rdap.nic.io/", responseTimeMs := 42 }
      rfl (by decide),
   (c2_fallback_orchestration "example.io" none (some "https://rdap.nic.io/")
      (some { status := 200, json := .obj [], finalUrl := "https://rdap.nic.io/domain/example.io", responseTimeMs := 42 })
      rfl).1⟩

/-- C5 counterexample: with fallback enabled (the default) and a primary
transport failure, a definitive authoritative answer is returned, so
`checkDomain` does not resolve to the claimed unknown/no-httpStatus/0ms
sentinel at this input. -/
theorem c5_counterexample :
    (checkDomain "example.io" true none (some "https://rdap.nic.io/")
        (some { status := 200, json := .obj [], finalUrl := "https://rdap.nic.io/domain/example.io", responseTimeMs := 42 })).1.status
      = .registered
    ∧ (checkDomain "example.io" true none (some "https://rdap.nic.io/")
        (some { status := 200, json := .obj [], finalUrl := "https://rdap.nic.io/domain/example.io", responseTimeMs := 42 })).1.httpStatus
      = some 200 := ⟨rfl, rfl⟩

/-- C5 amended: on timeout or transport failure of the primary query,
`checkDomain` never rejects (the model is total); the primary resolver
yields the sentinel (status `unknown`, no `httpStatus`, `responseTimeMs =
0`), and `checkDomain` returns that sentinel — unless fallback is enabled
and the authoritative query returns a definitive result, which is then
returned instead. -/
theorem c5_amended_transport_failure_sentinel :
    ∀ (domain : String) (fallback : Bool) (authUrl : Option String)
      (authFetch : Option FetchResult),
      checkViaRdapOrg domain none
        = { domain := domain, status := .unknown, httpStatus := none, errorCode := none,
            source := some "rdap.org", responseTimeMs := 0 }
      ∧ (fallback = false →
          (checkDomain domain fallback none authUrl authFetch).1 = checkViaRdapOrg domain none)
      ∧ (checkViaAuthoritative domain authUrl authFetch = none →
          (checkDomain domain fallback none authUrl authFetch).1 = checkViaRdapOrg domain none)
      ∧ (∀ a, checkViaAuthoritative domain authUrl authFetch = some a → a.status = .unknown →
          (checkDomain domain fallback none authUrl authFetch).1 = checkViaRdapOrg domain none)
      ∧ (∀ a, checkViaAuthoritative domain authUrl authFetch = some a → a.status ≠ .unknown →
          fallback = true →
          (checkDomain domain fallback none authUrl authFetch).1 = a) := by
  intro domain fallback authUrl authFetch
  refine ⟨rfl, ?_, ?_, ?_, ?_⟩
  · intro hFb
    subst hFb
    simp [checkDomain, checkViaRdapOrg]
  · intro hNone
    cases fallback <;> simp [checkDomain, checkViaRdapOrg, hNone]
  · intro a hEq hUnk
    cases fallback <;> simp [checkDomain, checkViaRdapOrg, hEq, hUnk]
  · intro a hEq hDef hFb
    subst hFb
    simp [checkDomain, checkViaRdapOrg, hEq, hDef]

/-- Witness for C5 (amended) at concrete inputs: the primary sentinel, the
fallback-disabled case, and the unavailable-authoritative case all return
the unknown sentinel. -/
theorem c5_amended_transport_failure_sentinel_witness :
    checkViaRdapOrg "example.io" none
      = { domain := "example.io", status := .unknown, httpStatus := none, errorCode := none,
          source := some "rdap.org", responseTimeMs := 0 }
    ∧ (checkDomain "example.io" false none none none).1 = checkViaRdapOrg "example.io" none
    ∧ (checkDomain "example.io" true none none none).1 = checkViaRdapOrg "example.io" none :=
  ⟨(c5_amended_transport_failure_sentinel "example.io" false none none).1,
   (c5_amended_transport_failure_sentinel "example.io" false none none).2.1 rfl,
   (c5_amended_transport_failure_sentinel "example.io" true none none).2.2.1 rfl⟩

/-- ASCII letter or digit, the class `[a-zA-Z0-9]` of the domain regex. -/
def isAlnumChar (c : Char) : Bool :=
  (97 ≤ c.toNat && c.toNat ≤ 122) || (65 ≤ c.toNat && c.toNat ≤ 90)
    || (48 ≤ c.toNat && c.toNat ≤ 57)

/-- The class `[a-zA-Z0-9-]` of the domain regex. -/
def isLabelChar (c : Char) : Bool :=
  isAlnumChar c || c == '-'

/-- Denotation of the label pattern
`[a-zA-Z0-9]([a-zA-Z0-9-]{0,61}[a-zA-Z0-9])?`: one alphanumeric character,
or 2 to 63 characters of alphanumerics/hyphens whose first and last
characters are alphanumeric. -/
def validLabel (label : List Char) : Bool :=
  1 ≤ label.length && label.length ≤ 63
    && label.all isLabelChar
    && (match label.head? with
        | some c => isAlnumChar c
        | none => false)
    && (match label.getLast? with
        | some c => isAlnumChar c
        | none => false)

/-- Splitting on `'.'` as `String.prototype.split('.')` does: empty pieces
are kept, so `"a..b"` yields `["a", "", "b"]` and `""` yields `[""]`. -/
def splitOnDot : List Char → List (List Char)
  | [] => [[]]
  | c :: rest =>
      let r := splitOnDot rest
      if c = '.' then [] :: r
      else
        match r with
        | [] => [[c]]
        | piece :: pieces => (c :: piece) :: pieces

/-- Model of `isValidDomain` (rdap.ts:182-190): the empty string fails the
`!domain` guard; otherwise the regex
`^label(\.label)*$` — equivalently, every dot-separated piece is a valid
label — is tested together with `domain.length <= 253` (JS string length
equals character count on this ASCII alphabet). -/
def isValidDomain (domain : String) : Bool :=
  if domain = "" then false
  else (splitOnDot domain.data).all validLabel && domain.data.length ≤ 253

/-- C4 (code bug record): evaluation of the code at the disputed inputs.
The label group of the regex is starred, so a bare word with no top-level
label is accepted: `isValidDomain "nodot" = true`, although the spec and
the repository's own unit test (`isValidDomain('invalid')` expected
`false`) require rejection; the other claimed evaluations hold. -/
theorem c4_bare_word_accepted :
    isValidDomain "nodot" = true
    ∧ isValidDomain "example.com" = true
    ∧ isValidDomain "-bad.com" = false := by decide

/-- Bootstrap cache TTL (rdap.ts: `CACHE_TTL_MS = 60 * 60 * 1000`). -/
def CACHE_TTL_MS : Nat := 60 * 60 * 1000

/-- The process-wide cache cell (`IanaCache` in rdap.ts): fetch timestamp
and cached bootstrap document. -/
structure IanaCache where
  timestamp : Nat
  data : JsValue

/-- Model of `getIanaBootstrap` (rdap.ts:227-245): the module-level
`ianaCache` variable is threaded explicitly, `now` models `Date.now()`,
and `fetched` is the document a fresh `fetchIanaBootstrap()` would
deliver (its failure path propagates an exception without touching the
cache, so it does not affect the state machine modelled here).  Returns
the served data, the new cache state, and the number of underlying
fetches (0 or 1).  JavaScript's `now - timestamp` can only be negative
under clock regression, where truncated `Nat` subtraction gives the same
cache-hit verdict. -/
def getIanaBootstrap (now : Nat) (cache : Option IanaCache) (fetched : JsValue) :
    JsValue × Option IanaCache × Nat :=
  match cache with
  | some entry =>
      if now - entry.timestamp < CACHE_TTL_MS then (entry.data, some entry, 0)
      else (fetched, some ⟨now, fetched⟩, 1)
  | none => (fetched, some ⟨now, fetched⟩, 1)

/-- Model of `clearIanaCache` (rdap.ts:292-294): resets the cache cell. -/
def clearIanaCache : Option IanaCache := none

/-- C6: starting from an empty cache, the first lookup fetches once and
caches at its timestamp; a second lookup strictly within the TTL serves
the cached document with no fetch; a lookup at or after expiry fetches
fresh data and replaces the cache wholesale; after `clearIanaCache` the
next lookup always fetches, regardless of TTL. -/
theorem c6_bootstrap_cache_ttl :
    ∀ (t0 t1 : Nat) (d0 d1 : JsValue),
      (getIanaBootstrap t0 none d0).2.2 = 1
      ∧ (getIanaBootstrap t0 none d0).2.1 = some ⟨t0, d0⟩
      ∧ (t1 - t0 < CACHE_TTL_MS →
          getIanaBootstrap t1 (getIanaBootstrap t0 none d0).2.1 d1
            = (d0, some ⟨t0, d0⟩, 0))
      ∧ (CACHE_TTL_MS ≤ t1 - t0 →
          getIanaBootstrap t1 (getIanaBootstrap t0 none d0).2.1 d1
            = (d1, some ⟨t1, d1⟩, 1))
      ∧ (∀ (t : Nat) (d : JsValue),
          getIanaBootstrap t clearIanaCache d = (d, some ⟨t, d⟩, 1)) := by
  intro t0 t1 d0 d1
  refine ⟨rfl, rfl, ?_, ?_, fun t d => rfl⟩
  · intro h
    simp [getIanaBootstrap, h]
  · intro h
    simp [getIanaBootstrap, Nat.not_lt.mpr h]

/-- Witness for C6 at concrete times: a hit 1000ms after a fetch at time
0, a refetch exactly at expiry (3600000ms), and a forced fetch after an
explicit cache clear. -/
theorem c6_bootstrap_cache_ttl_witness :
    getIanaBootstrap 1000 (getIanaBootstrap 0 none (.obj [])).2.1 .null
      = (.obj [], some ⟨0, .obj []⟩, 0)
    ∧ getIanaBootstrap 3600000 (getIanaBootstrap 0 none (.obj [])).2.1 .null
      = (.null, some ⟨3600000, .null⟩, 1)
    ∧ getIanaBootstrap 5 clearIanaCache (.obj []) = (.obj [], some ⟨5, .obj []⟩, 1) :=
  ⟨(c6_bootstrap_cache_ttl 0 1000 (.obj []) .null).2.2.1 (by decide),
   (c6_bootstrap_cache_ttl 0 3600000 (.obj []) .null).2.2.2.1 (by decide),
   (c6_bootstrap_cache_ttl 0 0 .null .null).2.2.2.2 5 (.obj [])⟩

/-- JavaScript property access `v.key` for a string key: it throws on
`null`/`undefined` (modelled by `Except.error`), objects look the key up
(absent keys give `undefined`), and arrays and primitives yield
`undefined` for the non-numeric keys used in this code. -/
def jsProp : JsValue → String → Except Unit JsValue
  | .undefined, _ => .error ()
  | .null, _ => .error ()
  | .obj fields, key => .ok ((lookupField fields key).getD .undefined)
  | _, _ => .ok .undefined

/-- JavaScript index access `v[i]`: throws on `null`/`undefined`; arrays
index their elements (out of range gives `undefined`); strings index
their characters; objects look up the decimal key; other primitives yield
`undefined`. -/
def jsIndex : JsValue → Nat → Except Unit JsValue
  | .undefined, _ => .error ()
  | .null, _ => .error ()
  | .arr elems, i => .ok (elems.getD i .undefined)
  | .str s, i =>
      .ok (match s.data.get? i with
           | some c => .str (String.mk [c])
           | none => .undefined)
  | .obj fields, i => .ok ((lookupField fields (toString i)).getD .undefined)
  | _, _ => .ok .undefined

/-- Total variant of `jsProp`, yielding `undefined` where access would
throw; used only by the spec-side characterization. -/
def jsPropTotal (v : JsValue) (key : String) : JsValue :=
  match jsProp v key with
  | .ok r => r
  | .error _ => .undefined

/-- Total variant of `jsIndex`, yielding `undefined` where access would
throw; used only by the spec-side characterization. -/
def jsIndexTotal (v : JsValue) (i : Nat) : JsValue :=
  match jsIndex v i with
  | .ok r => r
  | .error _ => .undefined

/-- `Array.prototype.includes` specialised to a string needle: strict
equality against a string matches only an equal string. -/
def includesStr (elems : List JsValue) (needle : String) : Bool :=
  elems.any fun v =>
    match v with
    | .str s => s == needle
    | _ => false

/-- Model of `extractTld` (rdap.ts:250-257): the last dot-separated piece
of the lowercased domain; absent when there is no dot or the piece is
empty (`tld || null`).  `Char.toLower` agrees with JavaScript
`toLowerCase` on ASCII domains. -/
def extractTld (domain : String) : Option String :=
  let parts := splitOnDot (domain.data.map Char.toLower)
  if parts.length > 1 then
    match parts.getLast? with
    | some [] => none
    | some tld => some (String.mk tld)
    | none => none
  else none

/-- Model of the predicate scan
`bootstrap.services?.find(svc => Array.isArray(svc[0]) && svc[0].includes(tld))`
(rdap.ts:273-276).  `svc[0]` throws on a `null`/`undefined` entry and the
exception propagates out of `find` to the enclosing `try`. -/
def findService (services : List JsValue) (tld : String) : Except Unit (Option JsValue) :=
  match services with
  | [] => .ok none
  | svc :: rest =>
      match jsIndex svc 0 with
      | .error e => .error e
      | .ok (.arr elems) =>
          if includesStr elems tld then .ok (some svc) else findService rest tld
      | .ok _ => findService rest tld

/-- Model of
`if (!service[1] || !service[1][0]) return null; return service[1][0] || null;`
(rdap.ts:278-283) for a service already found by the scan. -/
def serviceFirstUrl (svc : JsValue) : Except Unit (Option JsValue) :=
  match jsIndex svc 1 with
  | .error e => .error e
  | .ok urls =>
      if truthy urls = false then .ok none
      else
        match jsIndex urls 0 with
        | .error e => .error e
        | .ok first => if truthy first = false then .ok none else .ok (some first)

/-- Model of `getAuthoritativeRdapUrl` (rdap.ts:262-287).  The fetched
bootstrap document is a parameter; every thrown error lands in the
function's `catch`, which returns `null`, so each `Except.error` case
collapses to `none` here.  When `bootstrap.services` is `undefined` or
`null`, the optional chain short-circuits and the `!service` guard
returns `null`; when it is any other non-array, `.find` throws. -/
def getAuthoritativeRdapUrl (domain : String) (bootstrap : JsValue) : Option JsValue :=
  match extractTld domain with
  | none => none
  | some tld =>
      match jsProp bootstrap "services" with
      | .error _ => none
      | .ok services =>
          match services with
          | .arr svcs =>
              match findService svcs tld with
              | .error _ => none
              | .ok none => none
              | .ok (some svc) =>
                  match serviceFirstUrl svc with
                  | .error _ => none
                  | .ok r => r
          | .undefined => none
          | .null => none
          | _ => none

/-- Spec-side extraction of a matched group's first URL candidate: absent
unless `svc[1]` is truthy and its first element is truthy. -/
def cleanFirstUrl (svc : JsValue) : Option JsValue :=
  let urls := jsIndexTotal svc 1
  if truthy urls = false then none
  else
    let first := jsIndexTotal urls 0
    if truthy first = false then none else some first

/-- Spec-side scan of the TLD groups, as amended: groups whose first
component is not an array containing the TLD are skipped; the first
matching group's first URL candidate is returned (absent when the group
is malformed); a `null` or `undefined` entry aborts the scan, yielding
absent. -/
def scanServices (tld : String) : List JsValue → Option JsValue
  | [] => none
  | svc :: rest =>
      match svc with
      | .undefined => none
      | .null => none
      | _ =>
          match jsIndexTotal svc 0 with
          | .arr elems =>
              if includesStr elems tld then cleanFirstUrl svc
              else scanServices tld rest
          | _ => scanServices tld rest

/-- Spec-side lookup, as amended: lowercase the last label, then scan the
directory's service groups; a missing dot, an absent or null `services`
member, a non-array `services` member, no matching group, a malformed
matched group, or a null/undefined entry reached before a match all yield
absent. -/
def lookupAmended (domain : String) (bootstrap : JsValue) : Option JsValue :=
  match extractTld domain with
  | none => none
  | some tld =>
      match bootstrap with
      | .undefined => none
      | .null => none
      | _ =>
          match jsPropTotal bootstrap "services" with
          | .arr svcs => scanServices tld svcs
          | _ => none

/-- Index access succeeds on every truthy value. -/
lemma jsIndex_ok_of_truthy (v : JsValue) (i : Nat) (h : truthy v = true) :
    jsIndex v i = .ok (jsIndexTotal v i) := by
  cases v <;> simp_all [truthy, jsIndex, jsIndexTotal]

/-- The code's URL extraction agrees with the spec-side one whenever the
service value itself admits index access. -/
lemma serviceFirstUrl_eq_clean (svc : JsValue)
    (h : jsIndex svc 1 = .ok (jsIndexTotal svc 1)) :
    (match serviceFirstUrl svc with
     | .error _ => none
     | .ok r => r) = cleanFirstUrl svc := by
  unfold serviceFirstUrl cleanFirstUrl
  rw [h]
  generalize jsIndexTotal svc 1 = urls
  cases urls <;>
    simp only [truthy, jsIndex, jsIndexTotal] <;>
    split_ifs <;>
    simp_all

/-- The code's scan-and-extract pipeline agrees with the spec-side scan. -/
lemma findService_eq_scanServices (tld : String) (svcs : List JsValue) :
    (match findService svcs tld with
     | .error _ => none
     | .ok none => none
     | .ok (some svc) =>
         match serviceFirstUrl svc with
         | .error _ => none
         | .ok r => r) = scanServices tld svcs := by
  induction svcs with
  | nil => rfl
  | cons svc rest ih =>
      cases svc with
      | undefined => rfl
      | null => rfl
      | bool b => exact ih
      | num n => exact ih
      | str s =>
          simp only [findService, jsIndex, scanServices, jsIndexTotal]
          cases hc : s.data.get? 0 <;> simp only [hc] <;> exact ih
      | arr elems =>
          simp only [findService, jsIndex, scanServices, jsIndexTotal]
          cases hc : elems.getD 0 .undefined <;> simp only [hc] <;>
            first
            | exact ih
            | simpa using ih
            | (split_ifs <;>
                first
                | exact ih
                | simpa using ih
                | simpa using serviceFirstUrl_eq_clean (.arr elems) rfl)
      | obj fields =>
          simp only [findService, jsIndex, scanServices, jsIndexTotal]
          cases hc : (lookupField fields (toString 0)).getD .undefined <;> simp only [hc] <;>
            first
            | exact ih
            | simpa using ih
            | (split_ifs <;>
                first
                | exact ih
                | simpa using ih
                | simpa using serviceFirstUrl_eq_clean (.obj fields) rfl)

/-- C9 counterexample: a `null` entry in `services` makes the scan throw
inside `find`; the error is caught and the lookup returns absent even
though a later group matches, so a malformed individual entry does abort
the scan of the remaining entries.  Removing the `null` entry yields the
match. -/
theorem c9_counterexample :
    getAuthoritativeRdapUrl "a.com"
        (.obj [("services", .arr [.null,
          .arr [.arr [.str "com"], .arr [.str "https://rdap.example/"]]])])
      = none
    ∧ getAuthoritativeRdapUrl "a.com"
        (.obj [("services", .arr [
          .arr [.arr [.str "com"], .arr [.str "https://rdap.example/"]]])])
      = some (.str "https://rdap.example/") :=
  ⟨rfl, rfl⟩

/-- C9 amended: the lookup lowercases the domain's last label and scans
the TLD groups for an exact membership match of that label, returning the
first URL candidate of the first matching group; it returns absent when
the domain has no dot, when no group matches, or when the matched group
is structurally malformed; a malformed entry that is not `null` or
`undefined` is skipped without aborting the scan, but a `null` or
`undefined` entry aborts the scan and yields absent (the thrown error is
caught). -/
theorem c9_amended_lookup_characterization :
    ∀ (domain : String) (bootstrap : JsValue),
      getAuthoritativeRdapUrl domain bootstrap = lookupAmended domain bootstrap := by
  intro domain bootstrap
  unfold getAuthoritativeRdapUrl lookupAmended
  cases hT : extractTld domain with
  | none => rfl
  | some tld =>
      cases bootstrap with
      | undefined => rfl
      | null => rfl
      | bool b => rfl
      | num n => rfl
      | str s => rfl
      | arr elems => rfl
      | obj fields =>
          simp only [jsProp, jsPropTotal]
          cases h : (lookupField fields "services").getD .undefined with
          | arr svcs => exact findService_eq_scanServices tld svcs
          | undefined => rfl
          | null => rfl
          | bool b => rfl
          | num n => rfl
          | str s => rfl
          | obj f => rfl

/-- Clamp from `if (concurrency <= 0) concurrency = 1` (pool.ts:17-19,
87-89). -/
def clampConcurrency (c : Int) : Int :=
  if c ≤ 0 then 1 else c

/-- The tasks dispatched by the `processNext` loop: every index with its
item, exactly once, in index order (`const currentIndex = index++`); no
dispatch happens on empty input. -/
def dispatchedTasks {T : Type} (items : List T) : List (Nat × T) :=
  items.enum

/-- The effect of one task settling in batch mode:
`results[currentIndex] = result` (pool.ts:40-42).  Each task writes its
own slot, so slots written by distinct tasks never interfere. -/
def writeResult {T R : Type} (items : List T) (worker : T → R)
    (results : List (Option R)) (i : Nat) : List (Option R) :=
  match items[i]? with
  | some item => results.set i (some (worker item))
  | none => results

/-- Model of `runConcurrent` (pool.ts:8-67) for workers whose promises
all fulfil.  `order` is the completion schedule: the dispatched task
indices in the order their promises settle, which the pool does not
constrain.  Empty input returns immediately; the concurrency bound is
clamped to at least 1; when it reaches the item count the code runs
`Promise.all(items.map(worker))`, which preserves input order; otherwise
the pool fills `results` (created as `new Array(items.length)`, all holes,
modelled by `none`) with one write per completed task. -/
def runConcurrent {T R : Type} (items : List T) (c : Int) (worker : T → R)
    (order : List Nat) : List (Option R) :=
  if items.isEmpty then []
  else
    let conc := clampConcurrency c
    if (items.length : Int) ≤ conc then (items.map worker).map some
    else order.foldl (writeResult items worker) (List.replicate items.length none)

/-- A settling task never changes the result array's length. -/
lemma writeResult_length {T R : Type} (items : List T) (worker : T → R)
    (results : List (Option R)) (i : Nat) :
    (writeResult items worker results i).length = results.length := by
  unfold writeResult
  cases items[i]? <;> simp

/-- Folding any schedule of settlements preserves the length. -/
lemma foldl_write_length {T R : Type} (items : List T) (worker : T → R) :
    ∀ (order : List Nat) (results : List (Option R)),
      (order.foldl (writeResult items worker) results).length = results.length := by
  intro order
  induction order with
  | nil => intro results; rfl
  | cons i rest ih =>
      intro results
      simpa [writeResult_length] using (ih (writeResult items worker results i)).trans
        (writeResult_length items worker results i)

/-- Slots whose index never settles keep their previous value. -/
lemma foldl_write_getElem_of_not_mem {T R : Type} (items : List T) (worker : T → R)
    (j : Nat) :
    ∀ (order : List Nat) (results : List (Option R)), j ∉ order →
      (order.foldl (writeResult items worker) results)[j]? = results[j]? := by
  intro order
  induction order with
  | nil => intro results _; rfl
  | cons i rest ih =>
      intro results hj
      have hji : j ≠ i := fun h => hj (h ▸ List.mem_cons_self i rest)
      have hjr : j ∉ rest := fun h => hj (List.mem_cons_of_mem i h)
      have hstep : (writeResult items worker results i)[j]? = results[j]? := by
        unfold writeResult
        cases items[i]? with
        | none => rfl
        | some item => exact List.getElem?_set_ne (fun h => hji h.symm)
      simpa [hstep] using ih (writeResult items worker results i) hjr

/-- A slot whose index settles at least once holds its item's worker
result: every settlement of index `j` writes the same value, so the
outcome does not depend on when or how often `j` appears. -/
lemma foldl_write_getElem_of_mem {T R : Type} (items : List T) (worker : T → R)
    (j : Nat) (item : T) (hitem : items[j]? = some item) :
    ∀ (order : List Nat) (results : List (Option R)),
      results.length = items.length → j ∈ order →
      (order.foldl (writeResult items worker) results)[j]? = some (some (worker item)) := by
  intro order
  induction order with
  | nil => intro results _ hj; cases hj
  | cons i rest ih =>
      intro results hlen hj
      by_cases hjr : j ∈ rest
      · exact ih (writeResult items worker results i)
          ((writeResult_length items worker results i).trans hlen) hjr
      · have hji : j = i := by
          rcases List.mem_cons.mp hj with h | h
          · exact h
          · exact absurd h hjr
        subst hji
        have hlt : j < results.length := by
          rw [hlen]
          exact (List.getElem?_eq_some.mp hitem).1
        have hstep : (writeResult items worker results j)[j]? = some (some (worker item)) := by
          unfold writeResult
          rw [hitem]
          exact List.getElem?_set_eq_of_lt (some (worker item)) hlt
        calc (rest.foldl (writeResult items worker) (writeResult items worker results j))[j]?
            = (writeResult items worker results j)[j]? :=
              foldl_write_getElem_of_not_mem items worker j rest _ hjr
          _ = some (some (worker item)) := hstep

/-- Core of C3/C7: under any completion schedule that settles every
dispatched task exactly once (any permutation of the index range), batch
mode produces the workers' results, slot `i` holding the result for item
`i`. -/
lemma runConcurrent_eq_of_perm {T R : Type} (items : List T) (c : Int) (worker : T → R)
    (order : List Nat) (hperm : order.Perm (List.range items.length)) :
    runConcurrent items c worker order = items.map (fun t => some (worker t)) := by
  unfold runConcurrent
  by_cases hemp : items.isEmpty
  · rw [List.isEmpty_iff.mp hemp]
    simp
  · simp only [hemp, Bool.false_eq_true, if_false]
    by_cases hc : (items.length : Int) ≤ clampConcurrency c
    · simp [hc, List.map_map, Function.comp]
    · simp only [hc, if_false]
      apply List.ext_getElem?
      intro j
      by_cases hj : j < items.length
      · have hmem : j ∈ order := hperm.mem_iff.mpr (List.mem_range.mpr hj)
        have hitem : items[j]? = some items[j] := List.getElem?_eq_getElem hj
        rw [foldl_write_getElem_of_mem items worker j items[j] hitem order
          (List.replicate items.length none) (List.length_replicate _ _) hmem]
        rw [List.getElem?_map, hitem]
        rfl
      · have hlen : items.length ≤ j := Nat.le_of_not_lt hj
        rw [List.getElem?_eq_none, List.getElem?_eq_none]
        · simpa using hlen
        · rw [foldl_write_length, List.length_replicate]
          exact hlen

/-- C3: for every item list, worker and concurrency, under any completion
schedule, batch mode returns one slot per input item with slot `i`
holding the worker's result for item `i`; concurrency `c ≤ 0` behaves as
`c = 1`; empty input returns an empty array and dispatches nothing. -/
theorem c3_runConcurrent_order_preserving :
    ∀ {T R : Type} (items : List T) (c : Int) (worker : T → R) (order : List Nat),
      (order.Perm (List.range items.length) →
        runConcurrent items c worker order = items.map (fun t => some (worker t))
        ∧ (runConcurrent items c worker order).length = items.length)
      ∧ (c ≤ 0 → runConcurrent items c worker order = runConcurrent items 1 worker order)
      ∧ runConcurrent ([] : List T) c worker order = []
      ∧ dispatchedTasks ([] : List T) = [] := by
  intro T R items c worker order
  refine ⟨fun hperm => ?_, fun hc => ?_, rfl, rfl⟩
  · have h := runConcurrent_eq_of_perm items c worker order hperm
    exact ⟨h, by rw [h]; simp⟩
  · have h1 : clampConcurrency c = clampConcurrency 1 := by
      unfold clampConcurrency
      rw [if_pos hc, if_neg (by norm_num : ¬(1 : Int) ≤ 0)]
    unfold runConcurrent
    rw [h1]

/-- Witness for C3 at concrete inputs: three items, concurrency 2,
completion order 2-0-1, results in input order; and a concrete
`c = 0` run agreeing with `c = 1`. -/
theorem c3_runConcurrent_order_preserving_witness :
    runConcurrent [10, 20, 30] 2 (fun t => t + 1) [2, 0, 1]
      = [10, 20, 30].map (fun t => some (t + 1))
    ∧ runConcurrent [10, 20, 30] 0 (fun t => t + 1) [2, 0, 1]
      = runConcurrent [10, 20, 30] 1 (fun t => t + 1) [2, 0, 1] :=
  ⟨((c3_runConcurrent_order_preserving [10, 20, 30] 2 (fun t => t + 1) [2, 0, 1]).1
      (by decide)).1,
   (c3_runConcurrent_order_preserving [10, 20, 30] 0 (fun t => t + 1) [2, 0, 1]).2.1
      (by decide)⟩

/-- `Promise.all` (pool.ts:23): rejects iff some member rejects (which
member's reason surfaces is timing-dependent; with a single rejecter it
is that one), otherwise fulfils with the results in input order. -/
def promiseAll {E R : Type} : List (Except E R) → Except E (List R)
  | [] => .ok []
  | p :: ps =>
      match p with
      | .error e => .error e
      | .ok r =>
          match promiseAll ps with
          | .error e => .error e
          | .ok rs => .ok (r :: rs)

/-- Model of `runConcurrent` in the dispatch-all regime (pool.ts:13-24)
for possibly rejecting workers: empty input resolves with `[]`; when the
clamped concurrency reaches the item count the call is
`Promise.all(items.map(worker))`.  In the pooled regime (`none`) the
propagation of a rejection depends on microtask timing and is not
modelled. -/
def runConcurrentFallible {T E R : Type} (items : List T) (c : Int)
    (worker : T → Except E R) : Option (Except E (List R)) :=
  if items.isEmpty then some (.ok [])
  else if (items.length : Int) ≤ clampConcurrency c then
    some (promiseAll (items.map worker))
  else none

/-- A rejecting member rejects `Promise.all`. -/
lemma promiseAll_error_of_mem {R : Type} (ps : List (Except Unit R))
    (h : Except.error () ∈ ps) : promiseAll ps = .error () := by
  induction ps with
  | nil => cases h
  | cons p rest ih =>
      rcases List.mem_cons.mp h with h1 | h2
      · rw [← h1]
        rfl
      · cases p with
        | error e => rfl
        | ok r => simp [promiseAll, ih h2]

/-- C7 counterexample: in batch mode with three items whose middle worker
rejects (dispatch-all regime, concurrency ≥ item count), the call rejects
instead of resolving — worker failures are re-thrown, not recorded. -/
theorem c7_counterexample :
    runConcurrentFallible [1, 2, 3] 3 (fun i => if i = 2 then Except.error () else Except.ok i)
      = some (Except.error ()) := rfl

/-- C7 amended: when every worker fulfils, the call resolves only with
every dispatched task's result recorded in its own slot, under any
completion schedule; but a rejecting worker causes the returned promise
to reject rather than resolve (shown in the dispatch-all regime, where
`Promise.all` propagates the rejection). -/
theorem c7_amended_batch_settlement :
    ∀ {T R : Type} (items : List T) (c : Int),
      (∀ (worker : T → R) (order : List Nat),
        order.Perm (List.range items.length) →
        runConcurrent items c worker order = items.map (fun t => some (worker t)))
      ∧ (∀ (worker : T → Except Unit R),
          (items.length : Int) ≤ clampConcurrency c →
          (∃ t ∈ items, worker t = .error ()) →
          runConcurrentFallible items c worker = some (.error ())) := by
  intro T R items c
  constructor
  · intro worker order hperm
    exact runConcurrent_eq_of_perm items c worker order hperm
  · intro worker hc ⟨t, ht, hrej⟩
    have hne : items.isEmpty = false := by
      cases items with
      | nil => cases ht
      | cons a rest => rfl
    have hmem : Except.error () ∈ items.map worker :=
      hrej ▸ List.mem_map_of_mem worker ht
    unfold runConcurrentFallible
    rw [hne]
    simp only [Bool.false_eq_true, if_false, if_pos hc]
    rw [promiseAll_error_of_mem (items.map worker) hmem]

/-- Witness for C7 (amended) at concrete inputs: an all-fulfilling run
records every result, and a run whose middle worker rejects (with
concurrency above the item count) rejects. -/
theorem c7_amended_batch_settlement_witness :
    runConcurrent [4, 5] 9 (fun t => t * 2) [1, 0] = [4, 5].map (fun t => some (t * 2))
    ∧ runConcurrentFallible [1, 2, 3] 5
        (fun i => if i = 2 then Except.error () else Except.ok i) = some (.error ()) :=
  ⟨(c7_amended_batch_settlement [4, 5] 9).1 (fun t => t * 2) [1, 0] (by decide),
   (c7_amended_batch_settlement [1, 2, 3] 5).2
      (fun i => if i = 2 then Except.error () else Except.ok i) (by decide)
      ⟨2, by decide, rfl⟩⟩

/-- The effect of one streaming task settling at index `i`: the
`onResult` call `(result, item)` when its worker fulfils, nothing when it
rejects (the rejection is swallowed). -/
def streamEffect {T R : Type} (items : List T) (worker : T → Except Unit R)
    (i : Nat) : Option (R × T) :=
  match items[i]? with
  | some item =>
      match worker item with
      | .ok r => some (r, item)
      | .error _ => none
  | none => none

/-- Model of `runConcurrentStreaming` (pool.ts:77-136): each task's
settlement delivers `onResult(result, item)` when its worker fulfils,
while a rejection is swallowed by the `.catch(() => {})` (pool.ts:107-110)
so nothing is delivered and nothing propagates — in particular the call
always resolves, which is why this model's return type carries no error.
The returned list is the sequence of `onResult` invocations in completion
order, `order` being the settlement schedule of the dispatched tasks. -/
def runConcurrentStreaming {T R : Type} (items : List T) (c : Int)
    (worker : T → Except Unit R) (order : List Nat) : List (R × T) :=
  if items.isEmpty then []
  else
    let _conc := clampConcurrency c
    order.filterMap (streamEffect items worker)

/-- C8: with three items whose middle worker rejects, for every
concurrency and every completion schedule, streaming mode still resolves
and invokes `onResult` exactly twice — for items 1 and 3; the failed item
is skipped, not reported. -/
theorem c8_streaming_skips_rejected_item :
    ∀ (c : Int) (order : List Nat),
      order.Perm (List.range 3) →
      (runConcurrentStreaming [1, 2, 3] c
          (fun i => if i = 2 then Except.error () else Except.ok i) order).Perm
        [(1, 1), (3, 3)]
      ∧ (runConcurrentStreaming [1, 2, 3] c
          (fun i => if i = 2 then Except.error () else Except.ok i) order).length = 2 := by
  intro c order hperm
  have hrun : runConcurrentStreaming [1, 2, 3] c
      (fun i => if i = 2 then Except.error () else Except.ok i) order
      = order.filterMap
          (streamEffect [1, 2, 3] (fun i => if i = 2 then Except.error () else Except.ok i)) :=
    rfl
  have hfm := hperm.filterMap
    (streamEffect [1, 2, 3] (fun i => if i = 2 then Except.error () else Except.ok i))
  have hrange : (List.range 3).filterMap
      (streamEffect [1, 2, 3] (fun i => if i = 2 then Except.error () else Except.ok i))
      = [(1, 1), (3, 3)] := rfl
  rw [hrange] at hfm
  rw [hrun]
  exact ⟨hfm, hfm.length_eq⟩

/-- Witness for C8 at a concrete schedule: completion order 0-1-2 with
concurrency 2 delivers exactly the two successful results. -/
theorem c8_streaming_skips_rejected_item_witness :
    (runConcurrentStreaming [1, 2, 3] 2
        (fun i => if i = 2 then Except.error () else Except.ok i) [0, 1, 2]).Perm
      [(1, 1), (3, 3)]
    ∧ (runConcurrentStreaming [1, 2, 3] 2
        (fun i => if i = 2 then Except.error () else Except.ok i) [0, 1, 2]).length = 2 :=
  c8_streaming_skips_rejected_item 2 [0, 1, 2] (by decide)

end Dchk
